import Mathlib

/-!
Verification development for the `b3_2d` repository.

The Python sources are shallowly embedded: floating point scalars are
modelled by exact rationals `ℚ`, numpy arrays by Lean lists, Python dicts
by association lists, and fallible steps (file IO, subprocess calls,
external library invocations) by `Except String`-valued oracles.  The
trigonometric factors produced by `pyvista`'s `rotate_z` are modelled by
symbolic cosine/sine parameters, since cosine and sine of an angle are not
rational-valued; every statement quantifies over them.
-/

namespace B32d

/-- Sorted list of the distinct elements of a rational list; models
`np.unique` on a float array (numpy returns the sorted unique values). -/
def uniqueSortedQ (l : List ℚ) : List ℚ :=
  List.insertionSort (· ≤ ·) l.dedup

/-- Sorted list of the distinct elements of an integer list; models
`np.unique` / `sorted(set(...))` on integer-valued ids. -/
def uniqueSortedZ (l : List ℤ) : List ℤ :=
  List.insertionSort (· ≤ ·) l.dedup

/-- Minimum of an integer list, with first element as the base of the fold;
models Python `min(...)` / `np.min` on a nonempty list. -/
def minZ (l : List ℤ) : ℤ :=
  l.foldl min (l.headD 0)

/-- Maximum of an integer list; models Python `max(...)` / `.max()` on a
nonempty array. -/
def maxZ (l : List ℤ) : ℤ :=
  l.foldl max (l.headD 0)

/-- Minimum of a rational list, as in `minZ`. -/
def minQ (l : List ℚ) : ℚ :=
  l.foldl min (l.headD 0)

/-- Maximum of a rational list, as in `maxZ`. -/
def maxQ (l : List ℚ) : ℚ :=
  l.foldl max (l.headD 0)

/-! ## Section-mesh model for `extract_airfoil_and_web_points`
(`src/b3_2d/core/mesh.py`).

A `pyvista` section mesh is modelled by its 2D point coordinates (the code
only ever reads `points[:, :2]`; `rotate_z` acts in the xy-plane) together
with its cells.  Each cell carries the cell-data values the extractor
reads: `panel_id` (integer-valued category), and the `twist`/`dx`/`dy`
transform fields. Cell connectivity is kept as point indices into the
owning mesh's point list. -/

structure SCell where
  conn : List ℕ
  panel_id : ℤ
  twist : ℚ
  dx : ℚ
  dy : ℚ
  deriving DecidableEq, Repr

structure SMesh where
  points : List (ℚ × ℚ)
  cells : List SCell
  deriving DecidableEq, Repr

/-- Rotation of a point about the origin, with the cosine `c` and sine `s`
of the rotation angle given symbolically. -/
def rotPt (c s : ℚ) (p : ℚ × ℚ) : ℚ × ℚ :=
  (c * p.1 - s * p.2, s * p.1 + c * p.2)

/-- Models `mesh.rotate_z(θ)`: every point is rotated about the origin;
`c` and `s` stand for the (irrational) cosine and sine of `θ`. -/
def rotateZ (c s : ℚ) (m : SMesh) : SMesh :=
  { m with points := m.points.map (rotPt c s) }

/-- Models `mesh.threshold(value=(lo, hi), scalars="panel_id")`: keeps the
cells whose `panel_id` lies in `[lo, hi]`, and the points used by at least
one kept cell, in their original order.  (Kept cells retain their original
connectivity indices; downstream code in scope only reads the point list
and the cell list of a thresholded mesh.) -/
def thresholdPanel (m : SMesh) (lo hi : ℤ) : SMesh :=
  let kept := m.cells.filter (fun cl => lo ≤ cl.panel_id ∧ cl.panel_id ≤ hi)
  { points :=
      ((List.range m.points.length).filter
        (fun i => kept.any (fun cl => i ∈ cl.conn))).map
        (fun i => m.points.getD i (0, 0)),
    cells := kept }

/-- Models the effect of `sort_points_by_y` on the mesh point array: the
points are stably sorted by their y-coordinate.  (The connectivity remap
performed by `sort_points_by_y` is modelled separately on the triangle-mesh
embedding below; the extractor only reads the point list of the sorted
trailing-edge mesh.) -/
def sortMeshPointsByY (m : SMesh) : SMesh :=
  { m with points := List.insertionSort (fun p q => p.2 ≤ q.2) m.points }

/-- Squared bounding-box diagonal of a mesh.  `bb_size` in the source
computes `((xmax-xmin)^2 + (ymax-ymin)^2) ** 0.5`; the square root is not
rational-valued, so the model carries the squared diagonal and every
comparison of `bb_size` values is expressed on squares (the square root is
monotone on nonnegative reals, see `bb_cmp_iff_sq_cmp`). -/
def bbSizeSq (m : SMesh) : ℚ :=
  let xs := m.points.map Prod.fst
  let ys := m.points.map Prod.snd
  (maxQ xs - minQ xs) ^ 2 + (maxQ ys - minQ ys) ^ 2

/-- Models the point set of `pv.merge([a, b])`: the points of `a` followed
by those points of `b` not coinciding with a point of `a` (`pv.merge`
merges coincident points). -/
def mergePoints (a b : List (ℚ × ℚ)) : List (ℚ × ℚ) :=
  a ++ b.filter (fun p => ¬ p ∈ a)

/-- The `twist` value the extractor reads: `np.unique(cell_data["twist"])[0]`. -/
def meshTwist (m : SMesh) : ℚ :=
  (uniqueSortedQ (m.cells.map SCell.twist)).headD 0

/-- The `dx` value the extractor reads: `np.unique(cell_data["dx"])[0]`. -/
def meshDx (m : SMesh) : ℚ :=
  (uniqueSortedQ (m.cells.map SCell.dx)).headD 0

/-- The `dy` value the extractor reads: `np.unique(cell_data["dy"])[0]`. -/
def meshDy (m : SMesh) : ℚ :=
  (uniqueSortedQ (m.cells.map SCell.dy)).headD 0

/-- The `panel_id` cell-data array of a section mesh. -/
def panelIds (m : SMesh) : List ℤ :=
  m.cells.map SCell.panel_id

/-- The sorted distinct negative panel ids
(`[pid for pid in unique_panel_ids if pid < 0]`). -/
def negativePanelIds (m : SMesh) : List ℤ :=
  (uniqueSortedZ (panelIds m)).filter (fun pid => pid < 0)

/-- The web panel ids: the negative ids other than the minimum (trailing
edge), sorted in descending order
(`sorted([pid for pid in negative_panel_ids if pid != min_panel_id], reverse=True)`). -/
def webPanelIdsOf (m : SMesh) : List ℤ :=
  List.insertionSort (fun a b => b ≤ a)
    ((negativePanelIds m).filter (fun pid => pid ≠ minZ (negativePanelIds m)))

/-- Embedding of `extract_airfoil_and_web_points` (`core/mesh.py`).

`c` and `s` stand for the cosine and sine of `-twist` degrees, the angle
passed to `rotate_z`.  The function reads `twist`, `dx` and `dy` from the
cell data (and logs them), rotates the mesh by `-twist`, and then
thresholds by `panel_id`: with no negative ids the whole `[0, max]` band is
the airfoil; otherwise the minimum id is the trailing edge (merged into
the airfoil when its bounding box is large enough), and the remaining
negative ids, in descending order, are the webs.  Web ids whose threshold
has no cells are skipped.  Returns `(points_2d, web_data, airfoil)`. -/
def extract_airfoil_and_web_points (m : SMesh) (c s : ℚ) :
    List (ℚ × ℚ) × List (List (ℚ × ℚ) × SMesh) × SMesh :=
  -- twist/dx/dy are read and logged here in the source; only the twist is
  -- subsequently used (as the `rotate_z` angle, represented by `c`, `s`).
  let m2 := rotateZ c s m
  if negativePanelIds m = [] then
    let sect := thresholdPanel m2 0 (maxZ (panelIds m))
    (sect.points, [], sect)
  else
    let min_panel_id := minZ (negativePanelIds m)
    let te := sortMeshPointsByY (thresholdPanel m2 min_panel_id min_panel_id)
    let sect := thresholdPanel m2 0 (maxZ (panelIds m))
    let airfoil :=
      if 10000 * bbSizeSq te > 9 * bbSizeSq sect then
        { points := mergePoints sect.points te.points,
          cells := sect.cells ++ te.cells }
      else sect
    let web_data := (webPanelIdsOf m).filterMap (fun pid =>
      let web := thresholdPanel m2 pid pid
      if web.cells.length = 0 then none else some (web.points, web))
    (airfoil.points, web_data, airfoil)

/-- Overwrite the stored per-cell `dx`/`dy` offsets of a mesh. -/
def setOffsets (m : SMesh) (a b : ℚ) : SMesh :=
  { m with cells := m.cells.map (fun cl => { cl with dx := a, dy := b }) }

/-- A one-cell section mesh with a nonzero stored `dx` offset: the single
airfoil point sits at the origin, `twist = 0`, `dx = 1`, `dy = 0`. -/
def offsetMesh : SMesh :=
  { points := [(0, 0)],
    cells := [{ conn := [0], panel_id := 0, twist := 0, dx := 1, dy := 0 }] }

/-! ## Triangle-mesh model for `sort_points_by_y` (`core/mesh.py`).

`sort_points_by_y` sorts `mesh.points` by y-coordinate with Python's stable
`sorted`, rebuilds the VTK cell array (stride-4 blocks `[3, a, b, c]`, so
an all-triangle mesh) through the inverse permutation `old_to_new`, and
permutes every point-data array by the same `sorted_indices`.  Points are
3D here (`pyvista` stores x, y, z); a triangle is the index triple of one
stride-4 block. -/

structure TriMesh where
  points : List (ℚ × ℚ × ℚ)
  tris : List (ℕ × ℕ × ℕ)
  point_data : List (String × List ℚ)

/-- y-coordinate of point `i` (`mesh.points[i, 1]`). -/
def yOf (m : TriMesh) (i : ℕ) : ℚ :=
  (m.points.getD i (0, 0, 0)).2.1

/-- `sorted(range(n), key=lambda i: mesh.points[i, 1])` — a stable ascending
sort of the indices by y-coordinate. -/
def sortedIndices (m : TriMesh) : List ℕ :=
  List.insertionSort (fun i j => yOf m i ≤ yOf m j) (List.range m.points.length)

/-- `old_to_new[old] = new` — the position of `old` in `sorted_indices`. -/
def oldToNew (m : TriMesh) (v : ℕ) : ℕ :=
  (sortedIndices m).indexOf v

/-- Embedding of `sort_points_by_y`: points reordered by `sorted_indices`,
each triangle's three vertex ids remapped through `old_to_new`, and every
point-data array permuted like the points.  (The source copies the mesh
first; the embedding is pure, so the input is unmodified by construction.) -/
def sort_points_by_y (m : TriMesh) : TriMesh :=
  { points := (sortedIndices m).map (fun i => m.points.getD i (0, 0, 0)),
    tris := m.tris.map (fun t =>
      (oldToNew m t.1, oldToNew m t.2.1, oldToNew m t.2.2)),
    point_data := m.point_data.map (fun kv =>
      (kv.1, (sortedIndices m).map (fun i => kv.2.getD i 0))) }

/-- A concrete three-point, one-triangle mesh with one point-data array. -/
def triMeshEx : TriMesh :=
  { points := [(0, 2, 0), (1, 0, 0), (2, 1, 0)],
    tris := [(0, 1, 2)],
    point_data := [("a", [10, 20, 30])] }

/-- A small section mesh with a trailing edge (`panel_id = -3`), two webs
(`-1`, `-2`) and two skin panels (`0`, `1`). -/
def webMesh : SMesh :=
  { points := [(0, 0), (1, 0), (0, 1), (1, 1), (2, 2), (3, 3)],
    cells :=
      [{ conn := [0, 1], panel_id := 0, twist := 0, dx := 0, dy := 0 },
       { conn := [2, 3], panel_id := 1, twist := 0, dx := 0, dy := 0 },
       { conn := [4], panel_id := -1, twist := 0, dx := 0, dy := 0 },
       { conn := [5], panel_id := -2, twist := 0, dx := 0, dy := 0 },
       { conn := [0, 5], panel_id := -3, twist := 0, dx := 0, dy := 0 }] }

/-! ## BOM model (`core/bom.py`).

`compute_bom(mesh, matdb)` works from the mesh's `Area` and `material_id`
cell arrays (modelled as optional lists, `none` when the key is absent) and
an optional material database (name → properties; a property set may carry
an `id` and a density `rho`).  Float areas are modelled as exact
rationals. -/

structure MatProps where
  id : Option ℤ
  rho : Option ℚ
  deriving DecidableEq, Repr

structure BomMesh where
  area : Option (List ℚ)
  material_id : Option (List ℤ)
  deriving DecidableEq, Repr

structure BomData where
  total_area : ℚ
  areas_per_material : List (ℤ × ℚ)
  total_mass : Option ℚ
  masses_per_material : Option (List (ℤ × ℚ))
  deriving DecidableEq, Repr

/-- Python dict assignment `d[k] = v`: the final binding for `k` wins. -/
def insertAssoc (l : List (ℤ × MatProps)) (k : ℤ) (v : MatProps) :
    List (ℤ × MatProps) :=
  (l.filter (fun kv => kv.1 ≠ k)) ++ [(k, v)]

/-- `id_to_props`: built by iterating `matdb.items()` and assigning
`id_to_props[props["id"]] = props` for the entries that have an `"id"`. -/
def idToProps (matdb : List (String × MatProps)) : List (ℤ × MatProps) :=
  matdb.foldl (fun acc nmprops =>
    match nmprops.2.id with
    | some i => insertAssoc acc i nmprops.2
    | none => acc) []

/-- The mass rows the `matdb` loop of `compute_bom` produces from the
per-material area rows: an id found in `id_to_props` with a `rho` yields
`(id, area * rho)`; ids with no entry or no `rho` are skipped. -/
def massList (matdb : List (String × MatProps)) (l : List (ℤ × ℚ)) :
    List (ℤ × ℚ) :=
  l.filterMap (fun ma =>
    match (idToProps matdb).lookup ma.1 with
    | some props => props.rho.map (fun density => (ma.1, ma.2 * density))
    | none => none)

/-- Embedding of `compute_bom` (`core/bom.py`).  Returns `none` when
`Area` or `material_id` is missing; `total_area` sums all cell areas;
`areas_per_material` maps each distinct material id (in `np.unique`'s
ascending order) to the summed area of its cells; with a nonempty `matdb`
(`if matdb:`) the loop accumulates `mass = area * rho` per resolvable id
and their running total. -/
def compute_bom (mesh : BomMesh) (matdb : List (String × MatProps)) :
    Option BomData :=
  match mesh.area, mesh.material_id with
  | some areas, some mats =>
    let total_area := areas.sum
    let rows := mats.zip areas
    let areas_per_material := (uniqueSortedZ mats).map (fun mid =>
      (mid, ((rows.filter (fun r => r.1 = mid)).map Prod.snd).sum))
    if matdb ≠ [] then
      let step := areas_per_material.foldl
        (fun (acc : List (ℤ × ℚ) × ℚ) ma =>
          match (idToProps matdb).lookup ma.1 with
          | some props =>
            match props.rho with
            | some density =>
              (acc.1 ++ [(ma.1, ma.2 * density)], acc.2 + ma.2 * density)
            | none => acc
          | none => acc) ([], 0)
      some ⟨total_area, areas_per_material, some step.2, some step.1⟩
    else
      some ⟨total_area, areas_per_material, none, none⟩
  | _, _ => none

/-- Concrete BOM inputs: three cells with areas `1, 2, 3` and materials
`1, 1, 2`; a database resolving id `1` with `rho = 2` and id `2` with no
density. -/
def bomMeshEx : BomMesh :=
  { area := some [1, 2, 3], material_id := some [1, 1, 2] }

def matdbEx : List (String × MatProps) :=
  [("glass", { id := some 1, rho := some 2 }),
   ("foam", { id := some 2, rho := none })]

/-! ## ANBA runner model (`state/b3_2d_anba.py`, `run_anba_for_file`).

The subprocess call is modelled by its observable result (return code,
stdout, stderr); the section directory's `*.json` and `*.vtp` glob matches
are inputs; the output record collects the log file path, the text written
to it, the returned `(anba_file, success)` pair, and the files moved to the
results directory. -/

structure SubprocResult where
  returncode : ℤ
  stdout : String
  stderr : String
  deriving DecidableEq, Repr

structure AnbaRunOut where
  log_path : String
  log_content : String
  ret : String × Bool
  moved : List String
  deriving DecidableEq, Repr

/-- Embedding of `run_anba_for_file`: `success = (returncode == 0)`; the
log gets the header, stdout, and stderr when nonempty; on success every
`*.json` in the section directory other than the input file and every
`*.vtp` is moved to the results directory, otherwise nothing is moved. -/
def run_anba_for_file (section_dir anba_name : String)
    (json_files vtp_files : List String) (res : SubprocResult) : AnbaRunOut :=
  let anba_file := section_dir ++ "/" ++ anba_name
  let log_file := section_dir ++ "/anba_solve.log"
  let success := res.returncode == 0
  let content := "--- ANBA4 run for " ++ anba_file ++ " ---\n" ++ res.stdout ++
    (if res.stderr ≠ "" then res.stderr else "")
  let moved := if success then
      (json_files.filter (fun f => f ≠ anba_file)) ++ vtp_files
    else []
  { log_path := log_file, log_content := content,
    ret := (anba_file, success), moved := moved }

/-! ## Control-flow model of `process_single_section` and
`process_vtp_multi_section` (`core/mesh.py`).

`process_single_section` is a `try/except Exception` around a pipeline of
calls into `pyvista`/`cgfoil` plus two validation gates with early
`return`.  Each fallible step is modelled by an `Except String` oracle in
`StepEnv` (the string is the exception message `str(e)`); the pure parts
of the result dictionary (`section_id`, `success`, `input_file`,
`output_dir`, `created_files`, `errors`) are carried in `PResult`.
`invoked_generate` is instrumentation recording whether control reached
the `generate_mesh` call. -/

/-- Embedding of `validate_points`: every point must be a pair of numbers.
(The `isinstance` checks of the source are enforced by the embedding's
types; the length-2 check is the live one, since `points_2d` comes from
`.tolist()` of a float array slice.) -/
def validate_points (points_2d : List (List ℚ)) : Bool :=
  points_2d.all (fun p => p.length = 2)

structure StepEnv where
  /-- `pv.read(vtp_file).rotate_z(-90).rotate_x(180)` + threshold by
  `section_id` (lines 249-252). -/
  loadMesh : Except String Unit
  /-- `extract_airfoil_and_web_points` outcome: its `points_2d`. -/
  extractPts : Except String (List (List ℚ))
  /-- `get_ply_thicknesses_and_materials` outcome: the
  `airfoil_thicknesses` dict as an association list. -/
  plyThick : Except String (List (String × List ℚ))
  /-- `define_skins_and_webs` + `log_thicknesses` + `AirfoilMesh(...)`. -/
  defineSW : Except String Unit
  /-- `generate_mesh(mesh)`. -/
  genMesh : Except String Unit
  /-- `save_mesh_to_vtk` + the debug `pv.read` of the written file. -/
  saveVtk : Except String Unit
  /-- `pickle.dump` + `export_mesh_to_anba` + `os.remove`. -/
  exportAnba : Except String Unit

structure PResult where
  section_id : ℤ
  success : Bool
  input_file : String
  output_dir : String
  created_files : List String
  errors : List String
  invoked_generate : Bool
  deriving DecidableEq, Repr

/-- `os.path.join(output_base_dir, f"section_{section_id}")`. -/
def sectionDir (output_base_dir : String) (section_id : ℤ) : String :=
  output_base_dir ++ "/section_" ++ toString section_id

/-- Embedding of `process_single_section`: the section log file is
recorded in `created_files` before the `try` block; each oracle failure is
caught, setting `success := False` and appending the message to `errors`;
the two gates return early with their own message; the VTK path is
appended after a successful save, the ANBA path after a successful
export. -/
def process_single_section (section_id : ℤ) (vtp_file output_base_dir : String)
    (env : StepEnv) : PResult :=
  let section_dir := sectionDir output_base_dir section_id
  let r0 : PResult :=
    { section_id := section_id, success := true, input_file := vtp_file,
      output_dir := section_dir,
      created_files := [section_dir ++ "/2dmesh.log"],
      errors := [], invoked_generate := false }
  match env.loadMesh with
  | .error e => { r0 with success := false, errors := r0.errors ++ [e] }
  | .ok _ =>
    match env.extractPts with
    | .error e => { r0 with success := false, errors := r0.errors ++ [e] }
    | .ok points_2d =>
      if points_2d = [] ∨ points_2d.length < 10 ∨ ¬ validate_points points_2d then
        { r0 with
          success := false
          errors := r0.errors ++
            ["Invalid points for section " ++ toString section_id ++ ", skipping"] }
      else
        match env.plyThick with
        | .error e => { r0 with success := false, errors := r0.errors ++ [e] }
        | .ok airfoil_thicknesses =>
          if airfoil_thicknesses = [] then
            { r0 with
              success := false
              errors := r0.errors ++
                ["No thicknesses for section " ++ toString section_id ++ ", skipping"] }
          else
            match env.defineSW with
            | .error e => { r0 with success := false, errors := r0.errors ++ [e] }
            | .ok _ =>
              match env.genMesh with
              | .error e =>
                { r0 with
                  success := false
                  invoked_generate := true
                  errors := r0.errors ++ [e] }
              | .ok _ =>
                match env.saveVtk with
                | .error e =>
                  { r0 with
                    success := false
                    invoked_generate := true
                    errors := r0.errors ++ [e] }
                | .ok _ =>
                  let r1 :=
                    { r0 with
                      invoked_generate := true
                      created_files :=
                        r0.created_files ++ [section_dir ++ "/output.vtk"] }
                  match env.exportAnba with
                  | .error e =>
                    { r1 with success := false, errors := r1.errors ++ [e] }
                  | .ok _ =>
                    { r1 with created_files :=
                        r1.created_files ++ [section_dir ++ "/anba.json"] }

/-- The input mesh of `process_vtp_multi_section`, reduced to the cell
data the function reads: the `section_id` array when present. -/
structure VtpMesh where
  section_ids : Option (List ℤ)

/-- Embedding of `process_vtp_multi_section`: raises (`Except.error`)
before any section is processed when `section_id` is missing; otherwise
processes `sorted(set(section_ids))` in order with `pool.starmap`, which
preserves the argument order.  `envOf` supplies each section's step
outcomes. -/
def process_vtp_multi_section (mesh : VtpMesh)
    (vtp_file output_base_dir : String) (envOf : ℤ → StepEnv) :
    Except String (List PResult) :=
  match mesh.section_ids with
  | none => .error "section_id not found in VTP file"
  | some ids =>
    .ok ((uniqueSortedZ ids).map (fun sid =>
      process_single_section sid vtp_file output_base_dir (envOf sid)))

/-- A step environment in which every oracle succeeds and the extracted
points pass validation. -/
def envOk : StepEnv :=
  { loadMesh := .ok (),
    extractPts := .ok (List.replicate 12 [0, 0]),
    plyThick := .ok [("ply_0_thickness", [1, 1])],
    defineSW := .ok (), genMesh := .ok (), saveVtk := .ok (),
    exportAnba := .ok () }

/-- A step environment whose extraction returns an empty point list. -/
def envBadPts : StepEnv :=
  { envOk with extractPts := .ok [] }

/-! ## Ply-key model for `get_thickness_and_material_arrays`
(`core/mesh.py`).

The regular expressions of the source are embedded as executable
character-list functions: `re.match(r"ply_.*_thickness", k)` anchors at the
start, so it succeeds exactly when `k` starts with `"ply_"` and contains
`"_thickness"` somewhere after that prefix; `re.search(r"ply_(\d+)", x)`
finds the first `"ply_"` followed by a digit and captures the maximal digit
run; `str.replace("_thickness", "_material")` replaces every
(left-to-right, non-overlapping) occurrence. -/

def isPrefixL : List Char → List Char → Bool
  | [], _ => true
  | _ :: _, [] => false
  | a :: as, b :: bs => a = b && isPrefixL as bs

def containsL (needle : List Char) : List Char → Bool
  | [] => isPrefixL needle []
  | c :: t => isPrefixL needle (c :: t) || containsL needle t

/-- `re.match(r"ply_.*_thickness", k)` succeeds. -/
def matchesPlyThickness (k : String) : Bool :=
  isPrefixL "ply_".toList k.toList &&
    containsL "_thickness".toList (k.toList.drop 4)

/-- Numeric value of a digit run (`int` on the captured group). -/
def digitsVal (l : List Char) : ℕ :=
  l.foldl (fun n c => 10 * n + (c.toNat - 48)) 0

def plyNumSearch : List Char → Option ℕ
  | [] => none
  | c :: t =>
    if isPrefixL "ply_".toList (c :: t) &&
        (((c :: t).drop 4).headD ' ').isDigit then
      some (digitsVal (((c :: t).drop 4).takeWhile Char.isDigit))
    else plyNumSearch t

/-- `int(re.search(r"ply_(\d+)", k).group(1))`, `none` when the search
fails (where the source would raise `AttributeError`). -/
def plyNum (k : String) : Option ℕ :=
  plyNumSearch k.toList

def replaceThicknessMaterialL : List Char → List Char
  | '_' :: 't' :: 'h' :: 'i' :: 'c' :: 'k' :: 'n' :: 'e' :: 's' :: 's' :: rest =>
      "_material".toList ++ replaceThicknessMaterialL rest
  | c :: t => c :: replaceThicknessMaterialL t
  | [] => []

/-- `k.replace("_thickness", "_material")`. -/
def replaceThicknessMaterial (k : String) : String :=
  ⟨replaceThicknessMaterialL k.toList⟩

/-- A mesh reduced to its named data arrays: per-point and per-cell. -/
structure DMesh where
  point_data : List (String × List ℚ)
  cell_data : List (String × List ℚ)

/-- Models `mesh.cell_data_to_point_data(pass_cell_data=True)`: every cell
array is interpolated to the points (the averaging is abstracted by
`interp`) and appears under its name in the point data, after the original
point arrays; the cell data is passed through. -/
def cell_data_to_point_data (m : DMesh) (interp : List ℚ → List ℚ) : DMesh :=
  { point_data := m.point_data ++ m.cell_data.map (fun kv => (kv.1, interp kv.2)),
    cell_data := m.cell_data }

/-- Dictionary access `data[k]` on a named-array table (first binding). -/
def lookupArr (l : List (String × List ℚ)) (k : String) : List ℚ :=
  ((l.find? (fun kv => kv.1 = k)).map Prod.snd).getD []

/-- Embedding of `get_thickness_and_material_arrays`: select the
`ply_.*_thickness` keys of the cell-to-point-converted mesh's point data,
sort them by embedded ply number, pair them with the `_material` cell-data
keys; thickness values come from the converted point data, material values
from the original cell data.  (The sort key totalizes the source's
`int(re.search(...).group(1))` with default `0`; the source raises when a
selected key embeds no ply number.) -/
def get_thickness_and_material_arrays (m : DMesh) (interp : List ℚ → List ℚ) :
    List (String × List ℚ) × List (String × List ℚ) :=
  let mesh_point := cell_data_to_point_data m interp
  let thickness_keys :=
    (mesh_point.point_data.map Prod.fst).filter matchesPlyThickness
  let sorted_keys := List.insertionSort
    (fun a b => (plyNum a).getD 0 ≤ (plyNum b).getD 0) thickness_keys
  let material_keys := sorted_keys.map replaceThicknessMaterial
  (sorted_keys.map (fun k => (k, lookupArr mesh_point.point_data k)),
   material_keys.map (fun k => (k, lookupArr m.cell_data k)))

/-- Concrete data mesh: two ply thickness point arrays (in reversed ply
order), the matching material cell arrays, and unrelated arrays. -/
def dMeshEx : DMesh :=
  { point_data := [("ply_10_thickness", [1, 2]), ("ply_2_thickness", [3, 4]),
      ("Normals", [0, 0])],
    cell_data := [("ply_10_material", [5]), ("ply_2_material", [6]),
      ("panel_id", [0])] }

-- ===== theorems =====

lemma foldl_min_le_init {α : Type} [LinearOrder α] (l : List α) (a : α) :
    l.foldl min a ≤ a := by
  induction l generalizing a with
  | nil => simp
  | cons x xs ih => simpa using le_trans (ih (min a x)) (min_le_left a x)

lemma foldl_min_le_mem {α : Type} [LinearOrder α] (l : List α) (a : α) :
    ∀ x ∈ l, l.foldl min a ≤ x := by
  induction l generalizing a with
  | nil => simp
  | cons y ys ih =>
    intro x hx
    rcases List.mem_cons.mp hx with h | h
    · subst h
      simpa using le_trans (foldl_min_le_init ys (min a x)) (min_le_right a x)
    · simpa using ih (min a y) x h

lemma foldl_min_mem {α : Type} [LinearOrder α] (l : List α) (a : α) :
    l.foldl min a = a ∨ l.foldl min a ∈ l := by
  induction l generalizing a with
  | nil => exact Or.inl rfl
  | cons y ys ih =>
    rcases ih (min a y) with h | h
    · by_cases hay : a ≤ y
      · left
        simpa [List.foldl_cons, min_eq_left hay] using h
      · right
        have hmin : min a y = y := min_eq_right (le_of_not_le hay)
        simp only [List.foldl_cons, hmin] at h ⊢
        exact List.mem_cons.mpr (Or.inl h)
    · right
      simp only [List.foldl_cons]
      exact List.mem_cons.mpr (Or.inr h)

lemma minZ_mem (l : List ℤ) (h : l ≠ []) : minZ l ∈ l := by
  cases l with
  | nil => exact absurd rfl h
  | cons x xs =>
    unfold minZ
    simp only [List.headD_cons, List.foldl_cons, min_self]
    rcases foldl_min_mem xs x with h1 | h1
    · rw [h1]
      exact List.mem_cons_self x xs
    · exact List.mem_cons.mpr (Or.inr h1)

lemma minZ_le (l : List ℤ) : ∀ x ∈ l, minZ l ≤ x := by
  cases l with
  | nil => simp
  | cons y ys =>
    intro x hx
    unfold minZ
    simp only [List.headD_cons, List.foldl_cons, min_self]
    rcases List.mem_cons.mp hx with h | h
    · exact h ▸ foldl_min_le_init ys y
    · exact foldl_min_le_mem ys y x h

lemma mem_uniqueSortedZ (l : List ℤ) (x : ℤ) : x ∈ uniqueSortedZ l ↔ x ∈ l := by
  simp [uniqueSortedZ, List.mem_insertionSort, List.mem_dedup]

lemma nodup_uniqueSortedZ (l : List ℤ) : (uniqueSortedZ l).Nodup :=
  ((List.perm_insertionSort _ l.dedup).nodup_iff).mpr (List.nodup_dedup l)

lemma mem_negativePanelIds (m : SMesh) (pid : ℤ) :
    pid ∈ negativePanelIds m ↔ pid ∈ panelIds m ∧ pid < 0 := by
  simp [negativePanelIds, List.mem_filter, mem_uniqueSortedZ]

lemma nodup_negativePanelIds (m : SMesh) : (negativePanelIds m).Nodup :=
  (nodup_uniqueSortedZ _).filter _

lemma mem_webPanelIdsOf (m : SMesh) (pid : ℤ) :
    pid ∈ webPanelIdsOf m ↔
      (pid ∈ panelIds m ∧ pid < 0 ∧ pid ≠ minZ (negativePanelIds m)) := by
  simp only [webPanelIdsOf, List.mem_insertionSort, List.mem_filter,
    mem_negativePanelIds, decide_eq_true_eq]
  tauto

lemma webPanelIdsOf_sorted_desc (m : SMesh) :
    (webPanelIdsOf m).Pairwise (fun a b => b ≤ a) := by
  haveI : IsTotal ℤ (fun a b => b ≤ a) := ⟨fun a b => le_total b a⟩
  haveI : IsTrans ℤ (fun a b => b ≤ a) := ⟨fun _ _ _ h1 h2 => le_trans h2 h1⟩
  exact List.sorted_insertionSort _ _

lemma webPanelIdsOf_nodup (m : SMesh) : (webPanelIdsOf m).Nodup :=
  ((List.perm_insertionSort _ _).nodup_iff).mpr
    ((nodup_negativePanelIds m).filter _)

lemma webPanelIdsOf_pairwise_gt (m : SMesh) :
    (webPanelIdsOf m).Pairwise (fun a b => b < a) := by
  have h1 := webPanelIdsOf_sorted_desc m
  have h2 : (webPanelIdsOf m).Pairwise (fun a b => a ≠ b) := webPanelIdsOf_nodup m
  exact (h1.and h2).imp (fun h => lt_of_le_of_ne h.1 (Ne.symm h.2))

lemma length_filter_ne_of_nodup (l : List ℤ) (a : ℤ) (hn : l.Nodup) (ha : a ∈ l) :
    (l.filter (fun x => x ≠ a)).length = l.length - 1 := by
  induction l with
  | nil => cases ha
  | cons y ys ih =>
    by_cases hya : y = a
    · subst hya
      have hys : List.filter (fun x => decide (x ≠ y)) ys = ys := by
        apply List.filter_eq_self.mpr
        intro x hx
        simp only [decide_eq_true_eq]
        exact fun hxy => (List.nodup_cons.mp hn).1 (hxy ▸ hx)
      rw [List.filter_cons, if_neg (by simp), hys]
      simp
    · have hmem : a ∈ ys := by
        rcases List.mem_cons.mp ha with h | h
        · exact absurd h.symm hya
        · exact h
      have := ih (List.nodup_cons.mp hn).2 hmem
      have hpos : 0 < ys.length := List.length_pos_of_mem hmem
      simp only [List.filter_cons, decide_eq_true_eq]
      rw [if_pos hya]
      simp only [List.length_cons, this]
      omega

lemma webPanelIdsOf_length (m : SMesh) (h : negativePanelIds m ≠ []) :
    (webPanelIdsOf m).length = (negativePanelIds m).length - 1 := by
  unfold webPanelIdsOf
  rw [List.length_insertionSort]
  exact length_filter_ne_of_nodup _ _ (nodup_negativePanelIds m) (minZ_mem _ h)

lemma thresholdPanel_cells (m : SMesh) (lo hi : ℤ) :
    (thresholdPanel m lo hi).cells =
      m.cells.filter (fun cl => lo ≤ cl.panel_id ∧ cl.panel_id ≤ hi) := rfl

lemma rotateZ_cells (c s : ℚ) (m : SMesh) : (rotateZ c s m).cells = m.cells := rfl

lemma web_threshold_cells_ne_nil (m : SMesh) (c s : ℚ) (pid : ℤ)
    (hp : pid ∈ panelIds m) :
    (thresholdPanel (rotateZ c s m) pid pid).cells ≠ [] := by
  rcases List.mem_map.mp hp with ⟨cl, hcl, hpid⟩
  intro hnil
  have hmem : cl ∈ (thresholdPanel (rotateZ c s m) pid pid).cells := by
    rw [thresholdPanel_cells, rotateZ_cells]
    exact List.mem_filter.mpr ⟨hcl, by simp [hpid]⟩
  rw [hnil] at hmem
  cases hmem

/-- With negative panel ids present, no web id is skipped: every web id has
at least one cell, so the web list is exactly the map over the web ids. -/
lemma extract_web_data_eq (m : SMesh) (c s : ℚ) (h : ¬ negativePanelIds m = []) :
    (extract_airfoil_and_web_points m c s).2.1 =
      (webPanelIdsOf m).map (fun pid =>
        ((thresholdPanel (rotateZ c s m) pid pid).points,
          thresholdPanel (rotateZ c s m) pid pid)) := by
  unfold extract_airfoil_and_web_points
  rw [if_neg h]
  simp only []
  have h2 : ∀ pid ∈ webPanelIdsOf m,
      (if (thresholdPanel (rotateZ c s m) pid pid).cells.length = 0 then
        (none : Option (List (ℚ × ℚ) × SMesh))
       else some ((thresholdPanel (rotateZ c s m) pid pid).points,
        thresholdPanel (rotateZ c s m) pid pid)) =
      some ((thresholdPanel (rotateZ c s m) pid pid).points,
        thresholdPanel (rotateZ c s m) pid pid) := by
    intro pid hpid
    have hne : (thresholdPanel (rotateZ c s m) pid pid).cells ≠ [] :=
      web_threshold_cells_ne_nil m c s pid ((mem_webPanelIdsOf m pid).mp hpid).1
    rw [if_neg (by simpa [List.length_eq_zero] using hne)]
  rw [List.filterMap_congr h2]
  exact congrFun (List.filterMap_eq_map _) _

lemma setOffsets_points (m : SMesh) (a b : ℚ) :
    (setOffsets m a b).points = m.points := rfl

lemma rotateZ_setOffsets (c s a b : ℚ) (m : SMesh) :
    rotateZ c s (setOffsets m a b) = setOffsets (rotateZ c s m) a b := rfl

lemma setOffsets_cells_map_panel (m : SMesh) (a b : ℚ) :
    (setOffsets m a b).cells.map SCell.panel_id = m.cells.map SCell.panel_id := by
  simp [setOffsets, List.map_map]

lemma panelIds_setOffsets (m : SMesh) (a b : ℚ) :
    panelIds (setOffsets m a b) = panelIds m :=
  setOffsets_cells_map_panel m a b

lemma negativePanelIds_setOffsets (m : SMesh) (a b : ℚ) :
    negativePanelIds (setOffsets m a b) = negativePanelIds m := by
  simp [negativePanelIds, panelIds_setOffsets]

lemma webPanelIdsOf_setOffsets (m : SMesh) (a b : ℚ) :
    webPanelIdsOf (setOffsets m a b) = webPanelIdsOf m := by
  simp [webPanelIdsOf, negativePanelIds_setOffsets]

lemma thresholdPanel_setOffsets (m : SMesh) (a b : ℚ) (lo hi : ℤ) :
    thresholdPanel (setOffsets m a b) lo hi =
      setOffsets (thresholdPanel m lo hi) a b := by
  simp only [thresholdPanel, setOffsets, List.filter_map, List.any_map]
  rfl

lemma bbSizeSq_setOffsets (m : SMesh) (a b : ℚ) :
    bbSizeSq (setOffsets m a b) = bbSizeSq m := rfl

lemma sortMeshPointsByY_setOffsets (m : SMesh) (a b : ℚ) :
    sortMeshPointsByY (setOffsets m a b) = setOffsets (sortMeshPointsByY m) a b := rfl

lemma setOffsets_cells_length (m : SMesh) (a b : ℚ) :
    (setOffsets m a b).cells.length = m.cells.length := by
  simp [setOffsets]

/-- The extractor's observable point output does not depend on the stored
per-cell `dx`/`dy` fields: they are read and logged but never applied. -/
lemma extract_points_setOffsets (m : SMesh) (c s a b : ℚ) :
    (extract_airfoil_and_web_points (setOffsets m a b) c s).1 =
      (extract_airfoil_and_web_points m c s).1 ∧
    ((extract_airfoil_and_web_points (setOffsets m a b) c s).2.1.map Prod.fst) =
      ((extract_airfoil_and_web_points m c s).2.1.map Prod.fst) := by
  unfold extract_airfoil_and_web_points
  rw [negativePanelIds_setOffsets, panelIds_setOffsets, webPanelIdsOf_setOffsets,
    rotateZ_setOffsets]
  by_cases hneg : negativePanelIds m = []
  · simp only [hneg, if_pos rfl, thresholdPanel_setOffsets, setOffsets_points]
    exact ⟨rfl, rfl⟩
  · simp only [if_neg hneg]
    constructor
    · simp only [thresholdPanel_setOffsets, sortMeshPointsByY_setOffsets,
        bbSizeSq_setOffsets, setOffsets_points]
      split <;> rfl
    · simp only [thresholdPanel_setOffsets, sortMeshPointsByY_setOffsets,
        bbSizeSq_setOffsets, setOffsets_points, List.map_filterMap]
      apply List.filterMap_congr
      intro pid _
      simp only [thresholdPanel_setOffsets, setOffsets_cells_length, setOffsets_points]
      split <;> rfl

/-- C1: the spec claims `extract_airfoil_and_web_points` undoes both the
stored twist and the stored `dx`/`dy` offset.  The code rotates by the
negated twist but never applies the translation: the returned points are
invariant under changing the stored offsets, and on a concrete one-point
section with `twist = 0`, `dx = 1`, `dy = 0` the returned airfoil point is
the raw point `(0, 0)`, not the de-offset point `(0 - 1, 0 - 0)`. -/
theorem C1_extract_does_not_remove_offset :
    (∀ (m : SMesh) (c s a b : ℚ),
      (extract_airfoil_and_web_points (setOffsets m a b) c s).1 =
        (extract_airfoil_and_web_points m c s).1 ∧
      ((extract_airfoil_and_web_points (setOffsets m a b) c s).2.1.map Prod.fst) =
        ((extract_airfoil_and_web_points m c s).2.1.map Prod.fst)) ∧
    meshTwist offsetMesh = 0 ∧ meshDx offsetMesh = 1 ∧ meshDy offsetMesh = 0 ∧
    (extract_airfoil_and_web_points offsetMesh 1 0).1 = [(0, 0)] ∧
    (extract_airfoil_and_web_points offsetMesh 1 0).1 ≠
      [((0 : ℚ) - meshDx offsetMesh, (0 : ℚ) - meshDy offsetMesh)] := by
  refine ⟨fun m c s a b => extract_points_setOffsets m c s a b,
    by decide, by decide, by decide, ?_, ?_⟩
  · simp [extract_airfoil_and_web_points, offsetMesh, panelIds, negativePanelIds,
      uniqueSortedZ, thresholdPanel, rotateZ, rotPt, maxZ, List.range, List.range.loop]
  · have h1 : meshDx offsetMesh = 1 := by decide
    have h2 : meshDy offsetMesh = 0 := by decide
    rw [h1, h2]
    simp only [ne_eq]
    intro h
    have := congrArg (fun l => l.headD (5, 5)) h
    simp [extract_airfoil_and_web_points, offsetMesh, panelIds, negativePanelIds,
      uniqueSortedZ, thresholdPanel, rotateZ, rotPt, maxZ, List.range, List.range.loop,
      Prod.ext_iff] at this

/-- C3: with at least one negative panel id, the minimum panel id is the
trailing edge (it is the global minimum of the stored ids and is excluded
from the web list); the other negative ids, in strictly descending order
`-1, -2, ...`, each contribute exactly one web entry (none is skipped,
since every listed id has at least one cell); and the airfoil-skin
threshold keeps exactly the cells with `0 ≤ panel_id ≤ max`. -/
theorem C3_panel_id_roles (m : SMesh) (c s : ℚ)
    (h : ¬ negativePanelIds m = []) :
    ((∀ pid ∈ panelIds m, minZ (negativePanelIds m) ≤ pid) ∧
      minZ (negativePanelIds m) ∈ panelIds m ∧ minZ (negativePanelIds m) < 0) ∧
    (extract_airfoil_and_web_points m c s).2.1 =
      (webPanelIdsOf m).map (fun pid =>
        ((thresholdPanel (rotateZ c s m) pid pid).points,
          thresholdPanel (rotateZ c s m) pid pid)) ∧
    (∀ pid, pid ∈ webPanelIdsOf m ↔
      pid ∈ panelIds m ∧ pid < 0 ∧ pid ≠ minZ (negativePanelIds m)) ∧
    (webPanelIdsOf m).Pairwise (fun a b => b < a) ∧
    (extract_airfoil_and_web_points m c s).2.1.length =
      (negativePanelIds m).length - 1 ∧
    (∀ w ∈ (extract_airfoil_and_web_points m c s).2.1, w.2.cells ≠ []) ∧
    (∀ cl, cl ∈ (thresholdPanel (rotateZ c s m) 0 (maxZ (panelIds m))).cells ↔
      cl ∈ m.cells ∧ 0 ≤ cl.panel_id ∧ cl.panel_id ≤ maxZ (panelIds m)) := by
  have hmn : minZ (negativePanelIds m) ∈ negativePanelIds m := minZ_mem _ h
  have hmn2 := (mem_negativePanelIds m _).mp hmn
  refine ⟨⟨?_, hmn2.1, hmn2.2⟩, extract_web_data_eq m c s h,
    mem_webPanelIdsOf m, webPanelIdsOf_pairwise_gt m, ?_, ?_, ?_⟩
  · intro pid hpid
    by_cases hneg : pid < 0
    · exact minZ_le _ _ ((mem_negativePanelIds m pid).mpr ⟨hpid, hneg⟩)
    · exact le_trans (le_of_lt hmn2.2) (le_of_not_lt hneg)
  · rw [extract_web_data_eq m c s h, List.length_map, webPanelIdsOf_length m h]
  · intro w hw
    rw [extract_web_data_eq m c s h] at hw
    rcases List.mem_map.mp hw with ⟨pid, hpid, hweq⟩
    rw [← hweq]
    exact web_threshold_cells_ne_nil m c s pid ((mem_webPanelIdsOf m pid).mp hpid).1
  · intro cl
    rw [thresholdPanel_cells, rotateZ_cells, List.mem_filter]
    simp

/-- Witness for `C3_panel_id_roles` on a concrete five-cell mesh with
panel ids `0, 1, -1, -2, -3`. -/
theorem C3_panel_id_roles_witness :
    (¬ negativePanelIds webMesh = []) ∧
    (((∀ pid ∈ panelIds webMesh, minZ (negativePanelIds webMesh) ≤ pid) ∧
      minZ (negativePanelIds webMesh) ∈ panelIds webMesh ∧
      minZ (negativePanelIds webMesh) < 0) ∧
    (extract_airfoil_and_web_points webMesh 1 0).2.1 =
      (webPanelIdsOf webMesh).map (fun pid =>
        ((thresholdPanel (rotateZ 1 0 webMesh) pid pid).points,
          thresholdPanel (rotateZ 1 0 webMesh) pid pid)) ∧
    (∀ pid, pid ∈ webPanelIdsOf webMesh ↔
      pid ∈ panelIds webMesh ∧ pid < 0 ∧ pid ≠ minZ (negativePanelIds webMesh)) ∧
    (webPanelIdsOf webMesh).Pairwise (fun a b => b < a) ∧
    (extract_airfoil_and_web_points webMesh 1 0).2.1.length =
      (negativePanelIds webMesh).length - 1 ∧
    (∀ w ∈ (extract_airfoil_and_web_points webMesh 1 0).2.1, w.2.cells ≠ []) ∧
    (∀ cl, cl ∈ (thresholdPanel (rotateZ 1 0 webMesh) 0
        (maxZ (panelIds webMesh))).cells ↔
      cl ∈ webMesh.cells ∧ 0 ≤ cl.panel_id ∧
        cl.panel_id ≤ maxZ (panelIds webMesh))) :=
  ⟨by decide, C3_panel_id_roles webMesh 1 0 (by decide)⟩

lemma bbSizeSq_nonneg (m : SMesh) : 0 ≤ bbSizeSq m := by
  unfold bbSizeSq
  positivity

/-- `x > 0.03 * y` for the (nonnegative) square-root sizes is equivalent to
the squared comparison `10000 * x² > 9 * y²` carried by the model. -/
lemma bb_cmp_iff_sq_cmp (a b : ℚ) (hb : 0 ≤ b) :
    (3 / 100 : ℝ) * Real.sqrt (b : ℝ) < Real.sqrt (a : ℝ) ↔ 9 * b < 10000 * a := by
  have h0 : Real.sqrt ((9 : ℝ) / 10000) = 3 / 100 := by
    rw [show ((9 : ℝ) / 10000) = (3 / 100) ^ 2 by norm_num,
      Real.sqrt_sq (by norm_num)]
  have h1 : (3 / 100 : ℝ) * Real.sqrt (b : ℝ) =
      Real.sqrt ((9 / 10000) * (b : ℝ)) := by
    rw [Real.sqrt_mul (by norm_num), h0]
  rw [h1, Real.sqrt_lt_sqrt_iff (by positivity)]
  constructor
  · intro h2
    have h3 : (9 : ℝ) * (b : ℝ) < 10000 * (a : ℝ) := by nlinarith
    exact_mod_cast h3
  · intro h2
    have h3 : (9 : ℝ) * (b : ℝ) < 10000 * (a : ℝ) := by exact_mod_cast h2
    nlinarith

/-- C9: with negative panel ids present, the trailing-edge points are
merged into the returned airfoil points exactly when the trailing edge's
bounding-box diagonal exceeds 3% of the skin section's; otherwise the
airfoil points are those of the `[0, max]` panel band alone. -/
theorem C9_te_merge_threshold (m : SMesh) (c s : ℚ)
    (h : ¬ negativePanelIds m = []) :
    ((3 / 100 : ℝ) * Real.sqrt ((bbSizeSq (thresholdPanel (rotateZ c s m) 0
          (maxZ (panelIds m))) : ℝ)) <
        Real.sqrt ((bbSizeSq (sortMeshPointsByY (thresholdPanel (rotateZ c s m)
          (minZ (negativePanelIds m)) (minZ (negativePanelIds m)))) : ℝ)) →
      (extract_airfoil_and_web_points m c s).1 =
        mergePoints
          (thresholdPanel (rotateZ c s m) 0 (maxZ (panelIds m))).points
          (sortMeshPointsByY (thresholdPanel (rotateZ c s m)
            (minZ (negativePanelIds m)) (minZ (negativePanelIds m)))).points) ∧
    (¬ ((3 / 100 : ℝ) * Real.sqrt ((bbSizeSq (thresholdPanel (rotateZ c s m) 0
          (maxZ (panelIds m))) : ℝ)) <
        Real.sqrt ((bbSizeSq (sortMeshPointsByY (thresholdPanel (rotateZ c s m)
          (minZ (negativePanelIds m)) (minZ (negativePanelIds m)))) : ℝ))) →
      (extract_airfoil_and_web_points m c s).1 =
        (thresholdPanel (rotateZ c s m) 0 (maxZ (panelIds m))).points) := by
  have hbridge := bb_cmp_iff_sq_cmp
    (bbSizeSq (sortMeshPointsByY (thresholdPanel (rotateZ c s m)
      (minZ (negativePanelIds m)) (minZ (negativePanelIds m)))))
    (bbSizeSq (thresholdPanel (rotateZ c s m) 0 (maxZ (panelIds m))))
    (bbSizeSq_nonneg _)
  constructor
  · intro hgt
    have hc := hbridge.mp hgt
    unfold extract_airfoil_and_web_points
    rw [if_neg h]
    simp only [gt_iff_lt]
    rw [if_pos hc]
  · intro hng
    have hc : ¬ (9 * bbSizeSq (thresholdPanel (rotateZ c s m) 0
        (maxZ (panelIds m))) < 10000 * bbSizeSq (sortMeshPointsByY
          (thresholdPanel (rotateZ c s m) (minZ (negativePanelIds m))
            (minZ (negativePanelIds m))))) :=
      fun hcc => hng (hbridge.mpr hcc)
    unfold extract_airfoil_and_web_points
    rw [if_neg h]
    simp only [gt_iff_lt]
    rw [if_neg hc]

/-- Witness for `C9_te_merge_threshold` on the concrete five-cell mesh. -/
theorem C9_te_merge_threshold_witness :
    (¬ negativePanelIds webMesh = []) ∧
    (((3 / 100 : ℝ) * Real.sqrt ((bbSizeSq (thresholdPanel (rotateZ 1 0 webMesh) 0
          (maxZ (panelIds webMesh))) : ℝ)) <
        Real.sqrt ((bbSizeSq (sortMeshPointsByY (thresholdPanel (rotateZ 1 0 webMesh)
          (minZ (negativePanelIds webMesh)) (minZ (negativePanelIds webMesh)))) : ℝ)) →
      (extract_airfoil_and_web_points webMesh 1 0).1 =
        mergePoints
          (thresholdPanel (rotateZ 1 0 webMesh) 0 (maxZ (panelIds webMesh))).points
          (sortMeshPointsByY (thresholdPanel (rotateZ 1 0 webMesh)
            (minZ (negativePanelIds webMesh)) (minZ (negativePanelIds webMesh)))).points) ∧
    (¬ ((3 / 100 : ℝ) * Real.sqrt ((bbSizeSq (thresholdPanel (rotateZ 1 0 webMesh) 0
          (maxZ (panelIds webMesh))) : ℝ)) <
        Real.sqrt ((bbSizeSq (sortMeshPointsByY (thresholdPanel (rotateZ 1 0 webMesh)
          (minZ (negativePanelIds webMesh)) (minZ (negativePanelIds webMesh)))) : ℝ))) →
      (extract_airfoil_and_web_points webMesh 1 0).1 =
        (thresholdPanel (rotateZ 1 0 webMesh) 0 (maxZ (panelIds webMesh))).points)) :=
  ⟨by decide, C9_te_merge_threshold webMesh 1 0 (by decide)⟩

lemma sortedIndices_perm (m : TriMesh) :
    (sortedIndices m).Perm (List.range m.points.length) :=
  List.perm_insertionSort _ _

lemma sortedIndices_length (m : TriMesh) :
    (sortedIndices m).length = m.points.length := by
  rw [(sortedIndices_perm m).length_eq, List.length_range]

lemma mem_sortedIndices (m : TriMesh) (v : ℕ) :
    v ∈ sortedIndices m ↔ v < m.points.length := by
  rw [(sortedIndices_perm m).mem_iff, List.mem_range]

lemma sortedIndices_pairwise (m : TriMesh) :
    (sortedIndices m).Pairwise (fun i j => yOf m i ≤ yOf m j) := by
  haveI : IsTotal ℕ (fun i j => yOf m i ≤ yOf m j) := ⟨fun a b => le_total _ _⟩
  haveI : IsTrans ℕ (fun i j => yOf m i ≤ yOf m j) :=
    ⟨fun _ _ _ h1 h2 => le_trans h1 h2⟩
  exact List.sorted_insertionSort _ _

lemma map_getD_range {α : Type} (l : List α) (d : α) :
    (List.range l.length).map (fun i => l.getD i d) = l := by
  apply List.ext_getElem
  · simp
  · intro i h1 h2
    simp only [List.getElem_map, List.getElem_range]
    exact List.getD_eq_getElem l d h2

/-- C6: `sort_points_by_y` returns a mesh whose points are a permutation of
the input points in nondecreasing y order; the triangle connectivity is
remapped by the inverse `old_to_new` of the sorting permutation, so a
remapped index still addresses the same geometric point; and every
point-data array is permuted by the same index list as the points. -/
theorem C6_sort_points_by_y_spec (m : TriMesh) :
    ((sort_points_by_y m).points).Pairwise (fun p q => p.2.1 ≤ q.2.1) ∧
    ((sort_points_by_y m).points).Perm m.points ∧
    (∀ v, v < m.points.length →
      ((sort_points_by_y m).points).getD (oldToNew m v) (0, 0, 0) =
        m.points.getD v (0, 0, 0)) ∧
    ((sort_points_by_y m).tris = m.tris.map (fun t =>
      (oldToNew m t.1, oldToNew m t.2.1, oldToNew m t.2.2))) ∧
    ((sort_points_by_y m).point_data.map Prod.fst = m.point_data.map Prod.fst) ∧
    (∀ j, j < m.points.length →
      ((sort_points_by_y m).points).getD j (0, 0, 0) =
        m.points.getD ((sortedIndices m).getD j 0) (0, 0, 0)) ∧
    (∀ kv ∈ m.point_data,
      (kv.1, (sortedIndices m).map (fun i => kv.2.getD i 0)) ∈
        (sort_points_by_y m).point_data ∧
      ∀ j, j < m.points.length →
        ((sortedIndices m).map (fun i => kv.2.getD i 0)).getD j 0 =
          kv.2.getD ((sortedIndices m).getD j 0) 0) := by
  refine ⟨?_, ?_, ?_, rfl, ?_, ?_, ?_⟩
  · exact (sortedIndices_pairwise m).map _ (fun a b h => h)
  · exact ((sortedIndices_perm m).map _).trans (by rw [map_getD_range])
  · intro v hv
    have hvmem : v ∈ sortedIndices m := (mem_sortedIndices m v).mpr hv
    have hidx : (sortedIndices m).indexOf v < (sortedIndices m).length :=
      List.indexOf_lt_length.mpr hvmem
    unfold sort_points_by_y oldToNew
    rw [List.getD_eq_getElem _ _ (by simpa using hidx), List.getElem_map,
      List.getElem_indexOf hidx]
  · simp only [sort_points_by_y, List.map_map]
    rfl
  · intro j hj
    have hj2 : j < (sortedIndices m).length := by rw [sortedIndices_length]; exact hj
    unfold sort_points_by_y
    rw [List.getD_eq_getElem _ _ (by simpa using hj2), List.getElem_map,
      List.getD_eq_getElem _ _ hj2]
  · intro kv hkv
    constructor
    · exact List.mem_map.mpr ⟨kv, hkv, rfl⟩
    · intro j hj
      have hj2 : j < (sortedIndices m).length := by rw [sortedIndices_length]; exact hj
      rw [List.getD_eq_getElem _ _ (by simpa using hj2), List.getElem_map,
        List.getD_eq_getElem _ _ hj2]

/-- Witness for `C6_sort_points_by_y_spec` on a concrete three-point mesh. -/
theorem C6_sort_points_by_y_spec_witness :
    ((sort_points_by_y triMeshEx).points).Pairwise (fun p q => p.2.1 ≤ q.2.1) ∧
    ((sort_points_by_y triMeshEx).points).Perm triMeshEx.points ∧
    (∀ v, v < triMeshEx.points.length →
      ((sort_points_by_y triMeshEx).points).getD (oldToNew triMeshEx v) (0, 0, 0) =
        triMeshEx.points.getD v (0, 0, 0)) ∧
    ((sort_points_by_y triMeshEx).tris = triMeshEx.tris.map (fun t =>
      (oldToNew triMeshEx t.1, oldToNew triMeshEx t.2.1, oldToNew triMeshEx t.2.2))) ∧
    ((sort_points_by_y triMeshEx).point_data.map Prod.fst =
      triMeshEx.point_data.map Prod.fst) ∧
    (∀ j, j < triMeshEx.points.length →
      ((sort_points_by_y triMeshEx).points).getD j (0, 0, 0) =
        triMeshEx.points.getD ((sortedIndices triMeshEx).getD j 0) (0, 0, 0)) ∧
    (∀ kv ∈ triMeshEx.point_data,
      (kv.1, (sortedIndices triMeshEx).map (fun i => kv.2.getD i 0)) ∈
        (sort_points_by_y triMeshEx).point_data ∧
      ∀ j, j < triMeshEx.points.length →
        ((sortedIndices triMeshEx).map (fun i => kv.2.getD i 0)).getD j 0 =
          kv.2.getD ((sortedIndices triMeshEx).getD j 0) 0) :=
  C6_sort_points_by_y_spec triMeshEx

lemma sum_filter_not_filter (l : List (ℤ × ℚ)) (p : ℤ × ℚ → Bool) :
    ((l.filter p).map Prod.snd).sum +
      ((l.filter (fun x => !(p x))).map Prod.snd).sum = (l.map Prod.snd).sum := by
  induction l with
  | nil => simp
  | cons x xs ih =>
    cases hx : p x with
    | true =>
      simp [List.filter_cons, hx]
      linarith [ih]
    | false =>
      simp [List.filter_cons, hx]
      linarith [ih]

lemma sum_fiber_eq_total (mats : List ℤ) :
    ∀ rows : List (ℤ × ℚ), mats.Nodup → (∀ r ∈ rows, r.1 ∈ mats) →
    (mats.map (fun mid =>
      ((rows.filter (fun r => r.1 = mid)).map Prod.snd).sum)).sum =
      (rows.map Prod.snd).sum := by
  induction mats with
  | nil =>
    intro rows _ hcov
    cases rows with
    | nil => simp
    | cons r rs => exact absurd (hcov r (List.mem_cons_self r rs)) (List.not_mem_nil _)
  | cons mh mt ih =>
    intro rows hnd hcov
    have hcov' : ∀ r ∈ rows.filter (fun r => !(decide (r.1 = mh))), r.1 ∈ mt := by
      intro r hr
      have hr2 := List.mem_filter.mp hr
      rcases List.mem_cons.mp (hcov r hr2.1) with h | h
      · exact absurd hr2.2 (by simp [h])
      · exact h
    have hfib : ∀ mid ∈ mt,
        (rows.filter (fun r => !(decide (r.1 = mh)))).filter
          (fun r => r.1 = mid) = rows.filter (fun r => r.1 = mid) := by
      intro mid hmid
      rw [List.filter_filter]
      apply List.filter_congr
      intro r _
      by_cases h : r.1 = mid
      · have hne2 : ¬ mid = mh := fun heq => (List.nodup_cons.mp hnd).1 (heq ▸ hmid)
        simp [h, hne2]
      · simp [h]
    have hmt : mt.map (fun mid =>
        ((rows.filter (fun r => r.1 = mid)).map Prod.snd).sum) =
        mt.map (fun mid =>
          (((rows.filter (fun r => !(decide (r.1 = mh)))).filter
            (fun r => r.1 = mid)).map Prod.snd).sum) := by
      apply List.map_congr_left
      intro mid hmid
      rw [hfib mid hmid]
    simp only [List.map_cons, List.sum_cons]
    rw [hmt, ih (rows.filter (fun r => !(decide (r.1 = mh))))
      (List.nodup_cons.mp hnd).2 hcov']
    have hsplit := sum_filter_not_filter rows (fun r => decide (r.1 = mh))
    linarith [hsplit]

lemma mass_foldl_spec (matdb : List (String × MatProps)) (l : List (ℤ × ℚ))
    (acc : List (ℤ × ℚ) × ℚ) :
    l.foldl (fun acc ma =>
      match (idToProps matdb).lookup ma.1 with
      | some props =>
        match props.rho with
        | some density =>
          (acc.1 ++ [(ma.1, ma.2 * density)], acc.2 + ma.2 * density)
        | none => acc
      | none => acc) acc
    = (acc.1 ++ massList matdb l,
       acc.2 + ((massList matdb l).map Prod.snd).sum) := by
  induction l generalizing acc with
  | nil => simp [massList]
  | cons ma rest ih =>
    simp only [List.foldl_cons]
    cases hlk : (idToProps matdb).lookup ma.1 with
    | none =>
      rw [ih]
      simp [massList, List.filterMap_cons, hlk]
    | some props =>
      cases hrho : props.rho with
      | none =>
        rw [ih]
        simp [massList, List.filterMap_cons, hlk, hrho]
      | some density =>
        rw [ih]
        simp [massList, List.filterMap_cons, hlk, hrho, List.append_assoc, add_assoc]

lemma mem_massList (matdb : List (String × MatProps)) (l : List (ℤ × ℚ))
    (mid : ℤ) (q : ℚ) :
    (mid, q) ∈ massList matdb l ↔
      ∃ a, (mid, a) ∈ l ∧ ∃ props, (idToProps matdb).lookup mid = some props ∧
        ∃ density, props.rho = some density ∧ q = a * density := by
  simp only [massList, List.mem_filterMap]
  constructor
  · rintro ⟨ma, hma, hf⟩
    rcases hlk : (idToProps matdb).lookup ma.1 with _ | props
    · rw [hlk] at hf
      have hf2 : (none : Option (ℤ × ℚ)) = some (mid, q) := hf
      cases hf2
    · rw [hlk] at hf
      have hf2 : Option.map (fun density => (ma.1, ma.2 * density)) props.rho =
          some (mid, q) := hf
      rcases hrho : props.rho with _ | density
      · rw [hrho] at hf2
        cases hf2
      · rw [hrho, Option.map_some'] at hf2
        have heq := Option.some.inj hf2
        have h1 : ma.1 = mid := congrArg Prod.fst heq
        have h2 : ma.2 * density = q := congrArg Prod.snd heq
        refine ⟨ma.2, ?_, props, h1 ▸ hlk, density, hrho, h2.symm⟩
        have hmk : (ma.1, ma.2) = (mid, ma.2) := by rw [h1]
        simpa [← hmk] using hma
  · rintro ⟨a, hma, props, hlk, density, hrho, rfl⟩
    exact ⟨(mid, a), hma, by simp [hlk, hrho]⟩

/-- C4: `compute_bom` returns `None` iff `Area` or `material_id` is
missing; otherwise `total_area` is the sum of all cell areas,
`areas_per_material` maps each distinct material id to the summed area of
its cells and those per-material areas sum to `total_area`; with a material
database, exactly the ids resolvable to an entry with a `rho` get
`mass = area * rho`, and `total_mass` is the sum of the computed masses. -/
theorem C4_compute_bom_spec (mesh : BomMesh) (matdb : List (String × MatProps)) :
    ((mesh.area = none ∨ mesh.material_id = none) →
      compute_bom mesh matdb = none) ∧
    (∀ areas mats, mesh.area = some areas → mesh.material_id = some mats →
      mats.length = areas.length →
      ∃ bom, compute_bom mesh matdb = some bom ∧
        bom.total_area = areas.sum ∧
        bom.areas_per_material.map Prod.fst = uniqueSortedZ mats ∧
        (∀ mid, (mid ∈ bom.areas_per_material.map Prod.fst) ↔ mid ∈ mats) ∧
        (∀ mid a, (mid, a) ∈ bom.areas_per_material →
          a = (((mats.zip areas).filter (fun r => r.1 = mid)).map Prod.snd).sum) ∧
        (bom.areas_per_material.map Prod.snd).sum = bom.total_area ∧
        (matdb = [] →
          bom.total_mass = none ∧ bom.masses_per_material = none) ∧
        (matdb ≠ [] → ∃ masses,
          bom.masses_per_material = some masses ∧
          masses = massList matdb bom.areas_per_material ∧
          bom.total_mass = some ((masses.map Prod.snd).sum) ∧
          (∀ mid q, (mid, q) ∈ masses ↔
            ∃ a, (mid, a) ∈ bom.areas_per_material ∧
              ∃ props, (idToProps matdb).lookup mid = some props ∧
                ∃ density, props.rho = some density ∧ q = a * density))) := by
  constructor
  · intro hmiss
    unfold compute_bom
    rcases hmiss with h | h
    · rw [h]
    · rcases harea : mesh.area with _ | areas
      · rw [h]
      · rw [h]
  · intro areas mats ha hm hlen
    have hcov : ∀ r ∈ mats.zip areas, r.1 ∈ uniqueSortedZ mats := by
      intro r hr
      exact (mem_uniqueSortedZ mats r.1).mpr (List.of_mem_zip hr).1
    have hpart : ((uniqueSortedZ mats).map (fun mid =>
        (((mats.zip areas).filter (fun r => r.1 = mid)).map Prod.snd).sum)).sum =
        areas.sum := by
      rw [sum_fiber_eq_total (uniqueSortedZ mats) (mats.zip areas)
        (nodup_uniqueSortedZ mats) hcov,
        List.map_snd_zip mats areas (le_of_eq hlen.symm)]
    have hmemval : ∀ mid a,
        (mid, a) ∈ (uniqueSortedZ mats).map (fun mid =>
          (mid, (((mats.zip areas).filter (fun r => r.1 = mid)).map Prod.snd).sum)) →
        a = (((mats.zip areas).filter (fun r => r.1 = mid)).map Prod.snd).sum := by
      intro mid a hmem
      rcases List.mem_map.mp hmem with ⟨mid2, _, heq⟩
      have h1 : mid2 = mid := congrArg Prod.fst heq
      have h2 := congrArg Prod.snd heq
      simp only at h2
      rw [← h2, h1]
    unfold compute_bom
    simp only [ha, hm]
    by_cases hdb : matdb = []
    · subst hdb
      rw [if_neg (by simp)]
      refine ⟨_, rfl, rfl, by simp [List.map_map, Function.comp_def], ?_, hmemval, ?_, fun _ => ⟨rfl, rfl⟩,
        fun hne => absurd rfl hne⟩
      · intro mid
        simp [List.map_map, Function.comp, mem_uniqueSortedZ]
      · simpa [List.map_map, Function.comp_def] using hpart
    · rw [if_pos hdb]
      have hstep := mass_foldl_spec matdb ((uniqueSortedZ mats).map (fun mid =>
        (mid, (((mats.zip areas).filter (fun r => r.1 = mid)).map Prod.snd).sum)))
        ([], 0)
      refine ⟨_, rfl, rfl, by simp [List.map_map, Function.comp_def], ?_, hmemval, ?_, fun h => absurd h hdb,
        fun _ => ?_⟩
      · intro mid
        simp [List.map_map, Function.comp, mem_uniqueSortedZ]
      · simpa [List.map_map, Function.comp_def] using hpart
      · refine ⟨massList matdb _, ?_, rfl, ?_, ?_⟩
        · simp only [hstep, List.nil_append]
        · simp only [hstep, List.nil_append, zero_add]
        · intro mid q
          exact mem_massList matdb _ mid q

/-- Witness for `C4_compute_bom_spec` on three cells with areas `1, 2, 3`,
materials `1, 1, 2`, and a two-entry database. -/
theorem C4_compute_bom_spec_witness :
    ((bomMeshEx.area = none ∨ bomMeshEx.material_id = none) →
      compute_bom bomMeshEx matdbEx = none) ∧
    (∀ areas mats, bomMeshEx.area = some areas →
      bomMeshEx.material_id = some mats →
      mats.length = areas.length →
      ∃ bom, compute_bom bomMeshEx matdbEx = some bom ∧
        bom.total_area = areas.sum ∧
        bom.areas_per_material.map Prod.fst = uniqueSortedZ mats ∧
        (∀ mid, (mid ∈ bom.areas_per_material.map Prod.fst) ↔ mid ∈ mats) ∧
        (∀ mid a, (mid, a) ∈ bom.areas_per_material →
          a = (((mats.zip areas).filter (fun r => r.1 = mid)).map Prod.snd).sum) ∧
        (bom.areas_per_material.map Prod.snd).sum = bom.total_area ∧
        (matdbEx = [] →
          bom.total_mass = none ∧ bom.masses_per_material = none) ∧
        (matdbEx ≠ [] → ∃ masses,
          bom.masses_per_material = some masses ∧
          masses = massList matdbEx bom.areas_per_material ∧
          bom.total_mass = some ((masses.map Prod.snd).sum) ∧
          (∀ mid q, (mid, q) ∈ masses ↔
            ∃ a, (mid, a) ∈ bom.areas_per_material ∧
              ∃ props, (idToProps matdbEx).lookup mid = some props ∧
                ∃ density, props.rho = some density ∧ q = a * density))) :=
  C4_compute_bom_spec bomMeshEx matdbEx

/-- C5: `run_anba_for_file` returns `(anba_file, success)` with `success`
true iff the subprocess return code is `0`; it writes the header, stdout,
and (when nonempty) stderr to `anba_solve.log` in the section directory;
and the section's other JSON outputs and VTP files are moved to the
results directory exactly on success. -/
theorem C5_run_anba_for_file_spec (section_dir anba_name : String)
    (json_files vtp_files : List String) (res : SubprocResult) :
    ((run_anba_for_file section_dir anba_name json_files vtp_files res).ret.2 =
        true ↔ res.returncode = 0) ∧
    (run_anba_for_file section_dir anba_name json_files vtp_files res).ret.1 =
      section_dir ++ "/" ++ anba_name ∧
    (run_anba_for_file section_dir anba_name json_files vtp_files res).log_path =
      section_dir ++ "/anba_solve.log" ∧
    (res.stderr ≠ "" →
      (run_anba_for_file section_dir anba_name json_files vtp_files
          res).log_content =
        "--- ANBA4 run for " ++ (section_dir ++ "/" ++ anba_name) ++ " ---\n" ++
          res.stdout ++ res.stderr) ∧
    (res.stderr = "" →
      (run_anba_for_file section_dir anba_name json_files vtp_files
          res).log_content =
        "--- ANBA4 run for " ++ (section_dir ++ "/" ++ anba_name) ++ " ---\n" ++
          res.stdout) ∧
    (res.returncode ≠ 0 →
      (run_anba_for_file section_dir anba_name json_files vtp_files res).moved =
        []) ∧
    (res.returncode = 0 →
      (run_anba_for_file section_dir anba_name json_files vtp_files res).moved =
        (json_files.filter
          (fun f => f ≠ section_dir ++ "/" ++ anba_name)) ++ vtp_files) := by
  refine ⟨?_, rfl, rfl, ?_, ?_, ?_, ?_⟩
  · simp [run_anba_for_file]
  · intro hs
    simp [run_anba_for_file, if_pos hs]
  · intro hs
    simp [run_anba_for_file, hs]
  · intro hr
    simp [run_anba_for_file, hr]
  · intro hr
    simp [run_anba_for_file, hr]

/-- Witness for `C5_run_anba_for_file_spec` on a concrete successful run. -/
theorem C5_run_anba_for_file_spec_witness :
    ((run_anba_for_file "/w/section_1" "anba.json"
        ["/w/section_1/anba.json", "/w/section_1/anba_solve.json"]
        ["/w/section_1/out.vtp"] ⟨0, "solver output", ""⟩).ret.2 = true ↔
      (⟨0, "solver output", ""⟩ : SubprocResult).returncode = 0) ∧
    (run_anba_for_file "/w/section_1" "anba.json"
        ["/w/section_1/anba.json", "/w/section_1/anba_solve.json"]
        ["/w/section_1/out.vtp"] ⟨0, "solver output", ""⟩).ret.1 =
      "/w/section_1" ++ "/" ++ "anba.json" ∧
    (run_anba_for_file "/w/section_1" "anba.json"
        ["/w/section_1/anba.json", "/w/section_1/anba_solve.json"]
        ["/w/section_1/out.vtp"] ⟨0, "solver output", ""⟩).log_path =
      "/w/section_1" ++ "/anba_solve.log" ∧
    ((⟨0, "solver output", ""⟩ : SubprocResult).stderr ≠ "" →
      (run_anba_for_file "/w/section_1" "anba.json"
          ["/w/section_1/anba.json", "/w/section_1/anba_solve.json"]
          ["/w/section_1/out.vtp"] ⟨0, "solver output", ""⟩).log_content =
        "--- ANBA4 run for " ++ ("/w/section_1" ++ "/" ++ "anba.json") ++
          " ---\n" ++ (⟨0, "solver output", ""⟩ : SubprocResult).stdout ++
          (⟨0, "solver output", ""⟩ : SubprocResult).stderr) ∧
    ((⟨0, "solver output", ""⟩ : SubprocResult).stderr = "" →
      (run_anba_for_file "/w/section_1" "anba.json"
          ["/w/section_1/anba.json", "/w/section_1/anba_solve.json"]
          ["/w/section_1/out.vtp"] ⟨0, "solver output", ""⟩).log_content =
        "--- ANBA4 run for " ++ ("/w/section_1" ++ "/" ++ "anba.json") ++
          " ---\n" ++ (⟨0, "solver output", ""⟩ : SubprocResult).stdout) ∧
    ((⟨0, "solver output", ""⟩ : SubprocResult).returncode ≠ 0 →
      (run_anba_for_file "/w/section_1" "anba.json"
          ["/w/section_1/anba.json", "/w/section_1/anba_solve.json"]
          ["/w/section_1/out.vtp"] ⟨0, "solver output", ""⟩).moved = []) ∧
    ((⟨0, "solver output", ""⟩ : SubprocResult).returncode = 0 →
      (run_anba_for_file "/w/section_1" "anba.json"
          ["/w/section_1/anba.json", "/w/section_1/anba_solve.json"]
          ["/w/section_1/out.vtp"] ⟨0, "solver output", ""⟩).moved =
        ((["/w/section_1/anba.json", "/w/section_1/anba_solve.json"] : List String).filter
          (fun f => f ≠ "/w/section_1" ++ "/" ++ "anba.json")) ++
          ["/w/section_1/out.vtp"]) :=
  C5_run_anba_for_file_spec "/w/section_1" "anba.json"
    ["/w/section_1/anba.json", "/w/section_1/anba_solve.json"]
    ["/w/section_1/out.vtp"] ⟨0, "solver output", ""⟩

lemma pss_section_id (section_id : ℤ) (vtp_file output_base_dir : String)
    (env : StepEnv) :
    (process_single_section section_id vtp_file output_base_dir env).section_id =
      section_id := by
  unfold process_single_section
  repeat' split
  all_goals rfl

lemma pss_success_iff_errors (section_id : ℤ) (vtp_file output_base_dir : String)
    (env : StepEnv) :
    ((process_single_section section_id vtp_file output_base_dir env).success =
        true ↔
      (process_single_section section_id vtp_file output_base_dir env).errors =
        []) := by
  unfold process_single_section
  repeat' split
  all_goals simp

lemma pss_success_files (section_id : ℤ) (vtp_file output_base_dir : String)
    (env : StepEnv) :
    (process_single_section section_id vtp_file output_base_dir env).success =
      true →
    (process_single_section section_id vtp_file output_base_dir env).created_files =
      [sectionDir output_base_dir section_id ++ "/2dmesh.log",
       sectionDir output_base_dir section_id ++ "/output.vtk",
       sectionDir output_base_dir section_id ++ "/anba.json"] := by
  unfold process_single_section
  repeat' split
  all_goals simp

lemma pss_step_error (section_id : ℤ) (vtp_file output_base_dir : String)
    (env : StepEnv) (e : String) :
    (env.loadMesh = Except.error e ∨
     (env.loadMesh = Except.ok () ∧ env.extractPts = Except.error e) ∨
     (∃ pts, env.loadMesh = Except.ok () ∧ env.extractPts = Except.ok pts ∧
       ¬ (pts = [] ∨ pts.length < 10 ∨ ¬ validate_points pts) ∧
       env.plyThick = Except.error e) ∨
     (∃ pts th, env.loadMesh = Except.ok () ∧ env.extractPts = Except.ok pts ∧
       ¬ (pts = [] ∨ pts.length < 10 ∨ ¬ validate_points pts) ∧
       env.plyThick = Except.ok th ∧ ¬ th = [] ∧
       env.defineSW = Except.error e) ∨
     (∃ pts th, env.loadMesh = Except.ok () ∧ env.extractPts = Except.ok pts ∧
       ¬ (pts = [] ∨ pts.length < 10 ∨ ¬ validate_points pts) ∧
       env.plyThick = Except.ok th ∧ ¬ th = [] ∧
       env.defineSW = Except.ok () ∧ env.genMesh = Except.error e) ∨
     (∃ pts th, env.loadMesh = Except.ok () ∧ env.extractPts = Except.ok pts ∧
       ¬ (pts = [] ∨ pts.length < 10 ∨ ¬ validate_points pts) ∧
       env.plyThick = Except.ok th ∧ ¬ th = [] ∧
       env.defineSW = Except.ok () ∧ env.genMesh = Except.ok () ∧
       env.saveVtk = Except.error e) ∨
     (∃ pts th, env.loadMesh = Except.ok () ∧ env.extractPts = Except.ok pts ∧
       ¬ (pts = [] ∨ pts.length < 10 ∨ ¬ validate_points pts) ∧
       env.plyThick = Except.ok th ∧ ¬ th = [] ∧
       env.defineSW = Except.ok () ∧ env.genMesh = Except.ok () ∧
       env.saveVtk = Except.ok () ∧ env.exportAnba = Except.error e)) →
    (process_single_section section_id vtp_file output_base_dir env).success =
      false ∧
    (process_single_section section_id vtp_file output_base_dir env).errors =
      [e] := by
  intro h
  rcases h with h1 | ⟨h1, h2⟩ | ⟨pts, h1, h2, hg, h3⟩ |
    ⟨pts, th, h1, h2, hg, h3, hth, h4⟩ |
    ⟨pts, th, h1, h2, hg, h3, hth, h4, h5⟩ |
    ⟨pts, th, h1, h2, hg, h3, hth, h4, h5, h6⟩ |
    ⟨pts, th, h1, h2, hg, h3, hth, h4, h5, h6, h7⟩
  · simp [process_single_section, h1]
  · simp [process_single_section, h1, h2]
  · have hgA : ¬ pts = [] := fun hh => hg (Or.inl hh)
    have hgB : ¬ pts.length < 10 := fun hh => hg (Or.inr (Or.inl hh))
    have hgC : validate_points pts = true := by
      by_cases hc : validate_points pts = true
      · exact hc
      · exact absurd (Or.inr (Or.inr hc)) hg
    simp [process_single_section, h1, h2, hgA, hgB, hgC, h3]
  · have hgA : ¬ pts = [] := fun hh => hg (Or.inl hh)
    have hgB : ¬ pts.length < 10 := fun hh => hg (Or.inr (Or.inl hh))
    have hgC : validate_points pts = true := by
      by_cases hc : validate_points pts = true
      · exact hc
      · exact absurd (Or.inr (Or.inr hc)) hg
    simp [process_single_section, h1, h2, hgA, hgB, hgC, h3, hth, h4]
  · have hgA : ¬ pts = [] := fun hh => hg (Or.inl hh)
    have hgB : ¬ pts.length < 10 := fun hh => hg (Or.inr (Or.inl hh))
    have hgC : validate_points pts = true := by
      by_cases hc : validate_points pts = true
      · exact hc
      · exact absurd (Or.inr (Or.inr hc)) hg
    simp [process_single_section, h1, h2, hgA, hgB, hgC, h3, hth, h4, h5]
  · have hgA : ¬ pts = [] := fun hh => hg (Or.inl hh)
    have hgB : ¬ pts.length < 10 := fun hh => hg (Or.inr (Or.inl hh))
    have hgC : validate_points pts = true := by
      by_cases hc : validate_points pts = true
      · exact hc
      · exact absurd (Or.inr (Or.inr hc)) hg
    simp [process_single_section, h1, h2, hgA, hgB, hgC, h3, hth, h4, h5, h6]
  · have hgA : ¬ pts = [] := fun hh => hg (Or.inl hh)
    have hgB : ¬ pts.length < 10 := fun hh => hg (Or.inr (Or.inl hh))
    have hgC : validate_points pts = true := by
      by_cases hc : validate_points pts = true
      · exact hc
      · exact absurd (Or.inr (Or.inr hc)) hg
    simp [process_single_section, h1, h2, hgA, hgB, hgC, h3, hth, h4, h5, h6, h7]

/-- C2: `process_single_section` always returns a result record (the
embedding is a total function); `success` is true exactly when no error
was recorded; a raised step exception is caught with its message as the
sole entry of `errors` and `success = False`; and a fully successful run
lists the created log, VTK, and ANBA files. -/
theorem C2_process_single_section_error_handling (section_id : ℤ)
    (vtp_file output_base_dir : String) (env : StepEnv) :
    ((process_single_section section_id vtp_file output_base_dir env).success =
        true ↔
      (process_single_section section_id vtp_file output_base_dir env).errors =
        []) ∧
    ((process_single_section section_id vtp_file output_base_dir env).success =
        true →
      (process_single_section section_id vtp_file output_base_dir
          env).created_files =
        [sectionDir output_base_dir section_id ++ "/2dmesh.log",
         sectionDir output_base_dir section_id ++ "/output.vtk",
         sectionDir output_base_dir section_id ++ "/anba.json"]) ∧
    (∀ e : String,
      (env.loadMesh = Except.error e ∨
       (env.loadMesh = Except.ok () ∧ env.extractPts = Except.error e) ∨
       (∃ pts, env.loadMesh = Except.ok () ∧ env.extractPts = Except.ok pts ∧
         ¬ (pts = [] ∨ pts.length < 10 ∨ ¬ validate_points pts) ∧
         env.plyThick = Except.error e) ∨
       (∃ pts th, env.loadMesh = Except.ok () ∧ env.extractPts = Except.ok pts ∧
         ¬ (pts = [] ∨ pts.length < 10 ∨ ¬ validate_points pts) ∧
         env.plyThick = Except.ok th ∧ ¬ th = [] ∧
         env.defineSW = Except.error e) ∨
       (∃ pts th, env.loadMesh = Except.ok () ∧ env.extractPts = Except.ok pts ∧
         ¬ (pts = [] ∨ pts.length < 10 ∨ ¬ validate_points pts) ∧
         env.plyThick = Except.ok th ∧ ¬ th = [] ∧
         env.defineSW = Except.ok () ∧ env.genMesh = Except.error e) ∨
       (∃ pts th, env.loadMesh = Except.ok () ∧ env.extractPts = Except.ok pts ∧
         ¬ (pts = [] ∨ pts.length < 10 ∨ ¬ validate_points pts) ∧
         env.plyThick = Except.ok th ∧ ¬ th = [] ∧
         env.defineSW = Except.ok () ∧ env.genMesh = Except.ok () ∧
         env.saveVtk = Except.error e) ∨
       (∃ pts th, env.loadMesh = Except.ok () ∧ env.extractPts = Except.ok pts ∧
         ¬ (pts = [] ∨ pts.length < 10 ∨ ¬ validate_points pts) ∧
         env.plyThick = Except.ok th ∧ ¬ th = [] ∧
         env.defineSW = Except.ok () ∧ env.genMesh = Except.ok () ∧
         env.saveVtk = Except.ok () ∧ env.exportAnba = Except.error e)) →
      (process_single_section section_id vtp_file output_base_dir env).success =
        false ∧
      (process_single_section section_id vtp_file output_base_dir env).errors =
        [e]) :=
  ⟨pss_success_iff_errors section_id vtp_file output_base_dir env,
   pss_success_files section_id vtp_file output_base_dir env,
   fun e h => pss_step_error section_id vtp_file output_base_dir env e h⟩

/-- Witness for `C2_process_single_section_error_handling` on a
fully-successful environment. -/
theorem C2_process_single_section_error_handling_witness :
    ((process_single_section 1 "draped.vtk" "/out" envOk).success = true ↔
      (process_single_section 1 "draped.vtk" "/out" envOk).errors = []) ∧
    ((process_single_section 1 "draped.vtk" "/out" envOk).success = true →
      (process_single_section 1 "draped.vtk" "/out" envOk).created_files =
        [sectionDir "/out" 1 ++ "/2dmesh.log",
         sectionDir "/out" 1 ++ "/output.vtk",
         sectionDir "/out" 1 ++ "/anba.json"]) ∧
    (∀ e : String,
      (envOk.loadMesh = Except.error e ∨
       (envOk.loadMesh = Except.ok () ∧ envOk.extractPts = Except.error e) ∨
       (∃ pts, envOk.loadMesh = Except.ok () ∧ envOk.extractPts = Except.ok pts ∧
         ¬ (pts = [] ∨ pts.length < 10 ∨ ¬ validate_points pts) ∧
         envOk.plyThick = Except.error e) ∨
       (∃ pts th, envOk.loadMesh = Except.ok () ∧
         envOk.extractPts = Except.ok pts ∧
         ¬ (pts = [] ∨ pts.length < 10 ∨ ¬ validate_points pts) ∧
         envOk.plyThick = Except.ok th ∧ ¬ th = [] ∧
         envOk.defineSW = Except.error e) ∨
       (∃ pts th, envOk.loadMesh = Except.ok () ∧
         envOk.extractPts = Except.ok pts ∧
         ¬ (pts = [] ∨ pts.length < 10 ∨ ¬ validate_points pts) ∧
         envOk.plyThick = Except.ok th ∧ ¬ th = [] ∧
         envOk.defineSW = Except.ok () ∧ envOk.genMesh = Except.error e) ∨
       (∃ pts th, envOk.loadMesh = Except.ok () ∧
         envOk.extractPts = Except.ok pts ∧
         ¬ (pts = [] ∨ pts.length < 10 ∨ ¬ validate_points pts) ∧
         envOk.plyThick = Except.ok th ∧ ¬ th = [] ∧
         envOk.defineSW = Except.ok () ∧ envOk.genMesh = Except.ok () ∧
         envOk.saveVtk = Except.error e) ∨
       (∃ pts th, envOk.loadMesh = Except.ok () ∧
         envOk.extractPts = Except.ok pts ∧
         ¬ (pts = [] ∨ pts.length < 10 ∨ ¬ validate_points pts) ∧
         envOk.plyThick = Except.ok th ∧ ¬ th = [] ∧
         envOk.defineSW = Except.ok () ∧ envOk.genMesh = Except.ok () ∧
         envOk.saveVtk = Except.ok () ∧ envOk.exportAnba = Except.error e)) →
      (process_single_section 1 "draped.vtk" "/out" envOk).success = false ∧
      (process_single_section 1 "draped.vtk" "/out" envOk).errors = [e]) :=
  C2_process_single_section_error_handling 1 "draped.vtk" "/out" envOk

/-- C8: when the extracted airfoil points are empty, fewer than 10, or
fail `validate_points`, the section is marked failed with the
invalid-points message and the external mesh generator is never
invoked. -/
theorem C8_invalid_points_skip (section_id : ℤ)
    (vtp_file output_base_dir : String) (env : StepEnv) (pts : List (List ℚ))
    (hl : env.loadMesh = Except.ok ()) (hx : env.extractPts = Except.ok pts)
    (hbad : pts = [] ∨ pts.length < 10 ∨ validate_points pts = false) :
    (process_single_section section_id vtp_file output_base_dir env).success =
      false ∧
    (process_single_section section_id vtp_file output_base_dir env).errors =
      ["Invalid points for section " ++ toString section_id ++ ", skipping"] ∧
    (process_single_section section_id vtp_file output_base_dir
        env).invoked_generate = false := by
  simp [process_single_section, hl, hx, hbad]

/-- Witness for `C8_invalid_points_skip`: an environment whose extraction
returns an empty point list. -/
theorem C8_invalid_points_skip_witness :
    (envBadPts.loadMesh = Except.ok () ∧
      envBadPts.extractPts = Except.ok ([] : List (List ℚ)) ∧
      (([] : List (List ℚ)) = [] ∨ ([] : List (List ℚ)).length < 10 ∨
        validate_points [] = false)) ∧
    ((process_single_section 1 "draped.vtk" "/out" envBadPts).success = false ∧
    (process_single_section 1 "draped.vtk" "/out" envBadPts).errors =
      ["Invalid points for section " ++ toString (1 : ℤ) ++ ", skipping"] ∧
    (process_single_section 1 "draped.vtk" "/out"
        envBadPts).invoked_generate = false) :=
  ⟨⟨rfl, rfl, Or.inl rfl⟩,
   C8_invalid_points_skip 1 "draped.vtk" "/out" envBadPts [] rfl rfl (Or.inl rfl)⟩

lemma uniqueSortedZ_pairwise_lt (l : List ℤ) :
    (uniqueSortedZ l).Pairwise (fun a b => a < b) := by
  have h1 : (uniqueSortedZ l).Pairwise (fun a b => a ≤ b) :=
    List.sorted_insertionSort _ _
  have h2 : (uniqueSortedZ l).Pairwise (fun a b => a ≠ b) := nodup_uniqueSortedZ l
  exact (h1.and h2).imp (fun h => lt_of_le_of_ne h.1 h.2)

/-- C10: with no `section_id` cell array the multi-section driver raises
before any section is processed; otherwise it returns one result per
distinct section id, in strictly ascending id order, each produced by
`process_single_section` for that id. -/
theorem C10_multi_section_spec (mesh : VtpMesh)
    (vtp_file output_base_dir : String) (envOf : ℤ → StepEnv) :
    (mesh.section_ids = none →
      process_vtp_multi_section mesh vtp_file output_base_dir envOf =
        Except.error "section_id not found in VTP file") ∧
    (∀ ids, mesh.section_ids = some ids →
      ∃ rs, process_vtp_multi_section mesh vtp_file output_base_dir envOf =
          Except.ok rs ∧
        rs = (uniqueSortedZ ids).map (fun sid =>
          process_single_section sid vtp_file output_base_dir (envOf sid)) ∧
        rs.map PResult.section_id = uniqueSortedZ ids ∧
        (rs.map PResult.section_id).Pairwise (fun a b => a < b) ∧
        (∀ sid, sid ∈ rs.map PResult.section_id ↔ sid ∈ ids)) := by
  constructor
  · intro h
    unfold process_vtp_multi_section
    rw [h]
  · intro ids h
    unfold process_vtp_multi_section
    rw [h]
    have hmap : ((uniqueSortedZ ids).map (fun sid =>
        process_single_section sid vtp_file output_base_dir (envOf sid))).map
          PResult.section_id = uniqueSortedZ ids := by
      rw [List.map_map]
      have hfun : (PResult.section_id ∘ fun sid =>
          process_single_section sid vtp_file output_base_dir (envOf sid)) =
          fun sid => sid := by
        funext sid
        exact pss_section_id sid vtp_file output_base_dir (envOf sid)
      rw [hfun]
      exact List.map_id _
    refine ⟨_, rfl, rfl, hmap, ?_, ?_⟩
    · rw [hmap]
      exact uniqueSortedZ_pairwise_lt ids
    · intro sid
      rw [hmap]
      exact mem_uniqueSortedZ ids sid

/-- Witness for `C10_multi_section_spec` with section ids `[2, 1, 2]`. -/
theorem C10_multi_section_spec_witness :
    ((VtpMesh.mk (some [2, 1, 2])).section_ids = none →
      process_vtp_multi_section (VtpMesh.mk (some [2, 1, 2])) "draped.vtk" "/out"
          (fun _ => envOk) =
        Except.error "section_id not found in VTP file") ∧
    (∀ ids, (VtpMesh.mk (some [2, 1, 2])).section_ids = some ids →
      ∃ rs, process_vtp_multi_section (VtpMesh.mk (some [2, 1, 2])) "draped.vtk"
          "/out" (fun _ => envOk) = Except.ok rs ∧
        rs = (uniqueSortedZ ids).map (fun sid =>
          process_single_section sid "draped.vtk" "/out" envOk) ∧
        rs.map PResult.section_id = uniqueSortedZ ids ∧
        (rs.map PResult.section_id).Pairwise (fun a b => a < b) ∧
        (∀ sid, sid ∈ rs.map PResult.section_id ↔ sid ∈ ids)) :=
  C10_multi_section_spec (VtpMesh.mk (some [2, 1, 2])) "draped.vtk" "/out"
    (fun _ => envOk)

lemma isPrefixL_iff (p : List Char) : ∀ l : List Char,
    isPrefixL p l = true ↔ ∃ t, l = p ++ t := by
  induction p with
  | nil =>
    intro l
    simp [isPrefixL]
  | cons a as ih =>
    intro l
    cases l with
    | nil => simp [isPrefixL]
    | cons b bs =>
      simp only [isPrefixL, Bool.and_eq_true, decide_eq_true_eq, ih]
      constructor
      · rintro ⟨rfl, t, rfl⟩
        exact ⟨t, rfl⟩
      · rintro ⟨t, ht⟩
        rw [List.cons_append] at ht
        injection ht with h1 h2
        exact ⟨h1.symm, t, h2⟩

lemma containsL_iff (needle : List Char) : ∀ hay : List Char,
    containsL needle hay = true ↔
      ∃ pre post, hay = pre ++ (needle ++ post) := by
  intro hay
  induction hay with
  | nil =>
    rw [containsL, isPrefixL_iff]
    constructor
    · rintro ⟨t, ht⟩
      exact ⟨[], t, by simpa using ht⟩
    · rintro ⟨pre, post, h⟩
      have h2 : pre ++ (needle ++ post) = [] := h.symm
      rcases List.append_eq_nil.mp h2 with ⟨hpre, hrest⟩
      rcases List.append_eq_nil.mp hrest with ⟨hneedle, hpost⟩
      exact ⟨[], by simp [hneedle]⟩
  | cons c t ih =>
    rw [containsL, Bool.or_eq_true, ih, isPrefixL_iff]
    constructor
    · rintro (⟨tl, htl⟩ | ⟨pre, post, hpp⟩)
      · exact ⟨[], tl, by simpa using htl⟩
      · exact ⟨c :: pre, post, by simp [hpp]⟩
    · rintro ⟨pre, post, hpp⟩
      cases pre with
      | nil =>
        exact Or.inl ⟨post, by simpa using hpp⟩
      | cons p ps =>
        rw [List.cons_append] at hpp
        injection hpp with h1 h2
        exact Or.inr ⟨ps, post, h2⟩

lemma matchesPlyThickness_iff (k : String) :
    matchesPlyThickness k = true ↔
      ∃ mid rest, k.toList =
        "ply_".toList ++ (mid ++ ("_thickness".toList ++ rest)) := by
  unfold matchesPlyThickness
  rw [Bool.and_eq_true, isPrefixL_iff, containsL_iff]
  constructor
  · rintro ⟨⟨t, ht⟩, pre, post, hpp⟩
    have hd : k.toList.drop 4 = t := by
      rw [ht]
      have h4 : ("ply_".toList).length = 4 := rfl
      rw [← h4, List.drop_left]
    refine ⟨pre, post, ?_⟩
    rw [ht]
    exact congrArg _ (hd.symm.trans hpp)
  · rintro ⟨mid, rest, hk⟩
    refine ⟨⟨mid ++ ("_thickness".toList ++ rest), hk⟩, mid, rest, ?_⟩
    rw [hk]
    have h4 : ("ply_".toList).length = 4 := rfl
    rw [← h4, List.drop_left]

/-- C7: `get_thickness_and_material_arrays` selects exactly the point-data
keys of the converted mesh that match `ply_.*_thickness` (anchored at the
start, as an existential decomposition of the key), sorts them ascending
by embedded ply number, pairs each with its `_thickness → _material`
replacement; thickness arrays are the (per-point) converted point-data
values and material arrays the (per-cell) cell-data values. -/
theorem C7_thickness_material_selection (m : DMesh) (interp : List ℚ → List ℚ) :
    (∀ k, k ∈ (get_thickness_and_material_arrays m interp).1.map Prod.fst ↔
      (k ∈ (cell_data_to_point_data m interp).point_data.map Prod.fst ∧
        ∃ mid rest, k.toList =
          "ply_".toList ++ (mid ++ ("_thickness".toList ++ rest)))) ∧
    ((get_thickness_and_material_arrays m interp).1.map Prod.fst).Pairwise
      (fun a b => (plyNum a).getD 0 ≤ (plyNum b).getD 0) ∧
    (get_thickness_and_material_arrays m interp).2.map Prod.fst =
      ((get_thickness_and_material_arrays m interp).1.map Prod.fst).map
        replaceThicknessMaterial ∧
    (∀ kv ∈ (get_thickness_and_material_arrays m interp).1,
      kv.2 = lookupArr (cell_data_to_point_data m interp).point_data kv.1) ∧
    (∀ kv ∈ (get_thickness_and_material_arrays m interp).2,
      kv.2 = lookupArr m.cell_data kv.1) ∧
    replaceThicknessMaterial "ply_3_thickness" = "ply_3_material" ∧
    plyNum "ply_3_thickness" = some 3 := by
  have hkeys : (get_thickness_and_material_arrays m interp).1.map Prod.fst =
      List.insertionSort (fun a b => (plyNum a).getD 0 ≤ (plyNum b).getD 0)
        (((cell_data_to_point_data m interp).point_data.map Prod.fst).filter
          matchesPlyThickness) := by
    show (List.map _ _).map Prod.fst = _
    rw [List.map_map]
    exact List.map_id _
  have hmkeys : (get_thickness_and_material_arrays m interp).2.map Prod.fst =
      (List.insertionSort (fun a b => (plyNum a).getD 0 ≤ (plyNum b).getD 0)
        (((cell_data_to_point_data m interp).point_data.map Prod.fst).filter
          matchesPlyThickness)).map replaceThicknessMaterial := by
    show ((List.map _ _).map _).map Prod.fst = _
    rw [List.map_map, List.map_map]
    rfl
  refine ⟨?_, ?_, ?_, ?_, ?_, by decide, by decide⟩
  · intro k
    rw [hkeys, List.mem_insertionSort, List.mem_filter,
      ← matchesPlyThickness_iff k]
  · rw [hkeys]
    haveI : IsTotal String (fun a b => (plyNum a).getD 0 ≤ (plyNum b).getD 0) :=
      ⟨fun a b => le_total _ _⟩
    haveI : IsTrans String (fun a b => (plyNum a).getD 0 ≤ (plyNum b).getD 0) :=
      ⟨fun _ _ _ h1 h2 => le_trans h1 h2⟩
    exact List.sorted_insertionSort _ _
  · rw [hmkeys, hkeys]
  · rintro kv hkv
    rcases List.mem_map.mp hkv with ⟨k, _, rfl⟩
    rfl
  · rintro kv hkv
    rcases List.mem_map.mp hkv with ⟨k, _, rfl⟩
    rfl

/-- Witness for `C7_thickness_material_selection` on a concrete data mesh
with `ply_10`/`ply_2` arrays and unrelated keys. -/
theorem C7_thickness_material_selection_witness :
    (∀ k, k ∈ (get_thickness_and_material_arrays dMeshEx id).1.map Prod.fst ↔
      (k ∈ (cell_data_to_point_data dMeshEx id).point_data.map Prod.fst ∧
        ∃ mid rest, k.toList =
          "ply_".toList ++ (mid ++ ("_thickness".toList ++ rest)))) ∧
    ((get_thickness_and_material_arrays dMeshEx id).1.map Prod.fst).Pairwise
      (fun a b => (plyNum a).getD 0 ≤ (plyNum b).getD 0) ∧
    (get_thickness_and_material_arrays dMeshEx id).2.map Prod.fst =
      ((get_thickness_and_material_arrays dMeshEx id).1.map Prod.fst).map
        replaceThicknessMaterial ∧
    (∀ kv ∈ (get_thickness_and_material_arrays dMeshEx id).1,
      kv.2 = lookupArr (cell_data_to_point_data dMeshEx id).point_data kv.1) ∧
    (∀ kv ∈ (get_thickness_and_material_arrays dMeshEx id).2,
      kv.2 = lookupArr dMeshEx.cell_data kv.1) ∧
    replaceThicknessMaterial "ply_3_thickness" = "ply_3_material" ∧
    plyNum "ply_3_thickness" = some 3 :=
  C7_thickness_material_selection dMeshEx id

end B32d
